import Mathlib

/-!
Verification of the multi-platform product search aggregator
(`backend/product_search.py` and the `/search-products` endpoint of
`backend/main.py`).

The Python code is shallowly embedded: every provider's fetch is a pure
function of the aggregator configuration and an explicit network oracle,
exceptions are modelled with `Except`, the thread-pool fan-out of
`search_all` is modelled by an explicit completion order (the order in
which `as_completed` yields the provider futures), and the file cache is
a map from cache keys to stored files.  Python `float` values are
modelled as exact rationals, timestamps as integers (seconds).
-/

namespace ProductSearch

/-! ## Python string primitives

`pyLower` models `str.lower()` (per-character lowercasing; all strings
appearing in the cache-key claims are ASCII), `pyStrip` models
`str.strip()` (used by Python `float` on its argument), and
`removeChar c` models `str.replace(c, "")` for a one-character pattern,
which simply deletes every occurrence of `c`. -/

def pyLower (s : String) : String := ⟨s.data.map Char.toLower⟩

def pyStrip (s : String) : String :=
  ⟨((s.data.dropWhile Char.isWhitespace).reverse.dropWhile Char.isWhitespace).reverse⟩

def removeChar (c : Char) (s : String) : String :=
  ⟨s.data.filter (fun d => d != c)⟩

/-! ## Python `float()` on decimal string literals

`pyFloat` models Python's `float(s)` applied to a decimal literal:
surrounding whitespace is stripped, then an optional sign, integer
digits, an optional fractional part and an optional decimal exponent are
accepted; anything else raises `ValueError`.  The value is modelled as
an exact rational. -/

inductive PyErr where
  | valueError (msg : String)
  | transportError (msg : String)
deriving Repr, DecidableEq

deriving instance DecidableEq for Except

def digitsVal (cs : List Char) : Nat :=
  cs.foldl (fun acc c => acc * 10 + (c.toNat - 48)) 0

def takeDigits (cs : List Char) : List Char × List Char :=
  (cs.takeWhile Char.isDigit, cs.dropWhile Char.isDigit)

def parseSign : List Char → Int × List Char
  | '-' :: rest => (-1, rest)
  | '+' :: rest => (1, rest)
  | cs => (1, cs)

def pow10 : Nat → Nat
  | 0 => 1
  | n + 1 => 10 * pow10 n

def pyFloat (s : String) : Except PyErr Rat :=
  let cs := (pyStrip s).data
  let (sign, cs) := parseSign cs
  let (intDigits, cs) := takeDigits cs
  let (fracDigits, cs) :=
    match cs with
    | '.' :: rest => takeDigits rest
    | _ => ([], cs)
  if intDigits.isEmpty && fracDigits.isEmpty then .error (.valueError s)
  else
    let expParsed : Option (Int × List Char) :=
      match cs with
      | 'e' :: rest =>
        let (esign, r2) := parseSign rest
        let (eDigits, r3) := takeDigits r2
        if eDigits.isEmpty then none else some (esign * (digitsVal eDigits : Int), r3)
      | 'E' :: rest =>
        let (esign, r2) := parseSign rest
        let (eDigits, r3) := takeDigits r2
        if eDigits.isEmpty then none else some (esign * (digitsVal eDigits : Int), r3)
      | _ => some (0, cs)
    match expParsed with
    | none => .error (.valueError s)
    | some (e, rest) =>
      if !rest.isEmpty then .error (.valueError s)
      else
        let mantNum : Int :=
          sign * (digitsVal intDigits * (pow10 fracDigits.length : Int) + digitsVal fracDigits)
        if 0 ≤ e then .ok (mkRat (mantNum * (pow10 e.toNat : Int)) (pow10 fracDigits.length))
        else .ok (mkRat mantNum (pow10 fracDigits.length * pow10 (-e).toNat))

/-! ## MD5

`_get_cache_key` hashes the cache string with `hashlib.md5` and uses the
hex digest.  The full MD5 algorithm is implemented here over `Nat`
(words are kept below `2^32` with explicit reduction). -/

def md5K : List Nat :=
  [0xd76aa478, 0xe8c7b756, 0x242070db, 0xc1bdceee,
   0xf57c0faf, 0x4787c62a, 0xa8304613, 0xfd469501,
   0x698098d8, 0x8b44f7af, 0xffff5bb1, 0x895cd7be,
   0x6b901122, 0xfd987193, 0xa679438e, 0x49b40821,
   0xf61e2562, 0xc040b340, 0x265e5a51, 0xe9b6c7aa,
   0xd62f105d, 0x02441453, 0xd8a1e681, 0xe7d3fbc8,
   0x21e1cde6, 0xc33707d6, 0xf4d50d87, 0x455a14ed,
   0xa9e3e905, 0xfcefa3f8, 0x676f02d9, 0x8d2a4c8a,
   0xfffa3942, 0x8771f681, 0x6d9d6122, 0xfde5380c,
   0xa4beea44, 0x4bdecfa9, 0xf6bb4b60, 0xbebfbc70,
   0x289b7ec6, 0xeaa127fa, 0xd4ef3085, 0x04881d05,
   0xd9d4d039, 0xe6db99e5, 0x1fa27cf8, 0xc4ac5665,
   0xf4292244, 0x432aff97, 0xab9423a7, 0xfc93a039,
   0x655b59c3, 0x8f0ccc92, 0xffeff47d, 0x85845dd1,
   0x6fa87e4f, 0xfe2ce6e0, 0xa3014314, 0x4e0811a1,
   0xf7537e82, 0xbd3af235, 0x2ad7d2bb, 0xeb86d391]

def md5S : List Nat :=
  [7, 12, 17, 22, 7, 12, 17, 22, 7, 12, 17, 22, 7, 12, 17, 22,
   5, 9, 14, 20, 5, 9, 14, 20, 5, 9, 14, 20, 5, 9, 14, 20,
   4, 11, 16, 23, 4, 11, 16, 23, 4, 11, 16, 23, 4, 11, 16, 23,
   6, 10, 15, 21, 6, 10, 15, 21, 6, 10, 15, 21, 6, 10, 15, 21]

def rotl32 (x s : Nat) : Nat :=
  ((x <<< s) + (x >>> (32 - s))) % 4294967296

def chunksAux (n : Nat) : Nat → List Nat → List (List Nat)
  | 0, _ => []
  | _, [] => []
  | fuel + 1, l => l.take n :: chunksAux n fuel (l.drop n)

def chunks (n : Nat) (l : List Nat) : List (List Nat) := chunksAux n l.length l

def leVal (bs : List Nat) : Nat := bs.foldr (fun b acc => b + 256 * acc) 0

def leBytes (n x : Nat) : List Nat := (List.range n).map (fun i => (x >>> (8 * i)) % 256)

def md5Step (M : List Nat) (st : Nat × Nat × Nat × Nat) (i : Nat) : Nat × Nat × Nat × Nat :=
  let (a, b, c, d) := st
  let fg : Nat × Nat :=
    if i < 16 then ((b &&& c) ||| ((4294967295 - b) &&& d), i)
    else if i < 32 then ((d &&& b) ||| ((4294967295 - d) &&& c), (5 * i + 1) % 16)
    else if i < 48 then (b ^^^ c ^^^ d, (3 * i + 5) % 16)
    else (c ^^^ (b ||| (4294967295 - d)), (7 * i) % 16)
  let t := (a + fg.1 + md5K.getD i 0 + M.getD fg.2 0) % 4294967296
  (d, (b + rotl32 t (md5S.getD i 0)) % 4294967296, b, c)

def md5Block (st : Nat × Nat × Nat × Nat) (block : List Nat) : Nat × Nat × Nat × Nat :=
  let M := (chunks 4 block).map leVal
  let (a, b, c, d) := (List.range 64).foldl (md5Step M) st
  let (a0, b0, c0, d0) := st
  ((a0 + a) % 4294967296, (b0 + b) % 4294967296, (c0 + c) % 4294967296, (d0 + d) % 4294967296)

def md5Pad (ms : List Nat) : List Nat :=
  let padLen := (55 + 64 - ms.length % 64) % 64
  ms ++ [128] ++ List.replicate padLen 0 ++ leBytes 8 ((8 * ms.length) % 18446744073709551616)

def md5Digest (ms : List Nat) : List Nat :=
  let (a, b, c, d) :=
    (chunks 64 (md5Pad ms)).foldl md5Block (1732584193, 4023233417, 2562383102, 271733878)
  leBytes 4 a ++ leBytes 4 b ++ leBytes 4 c ++ leBytes 4 d

def hexChar (n : Nat) : Char := "0123456789abcdef".data.getD n '0'

def md5Hex (ms : List Nat) : String :=
  ⟨((md5Digest ms).map (fun b => [hexChar (b / 16), hexChar (b % 16)])).flatten⟩

/-- UTF-8 encoding of one character, as byte values (`str.encode()`). -/
def utf8EncodeChar (c : Char) : List Nat :=
  let n := c.toNat
  if n < 128 then [n]
  else if n < 2048 then [192 + n / 64, 128 + n % 64]
  else if n < 65536 then [224 + n / 4096, 128 + (n / 64) % 64, 128 + n % 64]
  else [240 + n / 262144, 128 + (n / 4096) % 64, 128 + (n / 64) % 64, 128 + n % 64]

def utf8Bytes (s : String) : List Nat := (s.data.map utf8EncodeChar).flatten

set_option maxRecDepth 40000 in
example : md5Hex (utf8Bytes "abc") = "900150983cd24fb0d6963f7d28e17f72" := by decide

/-! ## Data model

`SearchResult` is the normalized record each provider client builds:
the common fields of the Python dicts plus provider-specific extras
(`condition`, `rating`, `source`, `reviews`) carried as string pairs. -/

structure SearchResult where
  title : String
  price : Rat
  currency : String
  url : String
  image : String
  platform : String
  extra : List (String × String)
deriving Repr, DecidableEq

/-! Raw provider payloads, with exactly the fields the Python code reads.
eBay's JSON wraps every field in a one-element list
(`item.get("title", [""])[0]`); the element itself is modelled, a
missing key as `none`.  A payload on which `response.json()` fails is
modelled as the `.error` case of the network oracle below. -/

structure EbayCurrentPrice where
  value : Option String
  currencyId : Option String
deriving Repr, DecidableEq

structure EbaySellingStatus where
  currentPrice : Option EbayCurrentPrice
deriving Repr, DecidableEq

structure EbayCondition where
  conditionDisplayName : Option String
deriving Repr, DecidableEq

structure EbayItem where
  title : Option String
  sellingStatus : Option EbaySellingStatus
  viewItemURL : Option String
  galleryURL : Option String
  condition : Option EbayCondition
deriving Repr, DecidableEq

/-- `data["findItemsByKeywordsResponse"][0]["searchResult"][0]["item"]`,
defaulting to `[]`. -/
structure EbayResponse where
  item : List EbayItem
deriving Repr, DecidableEq

structure AmazonItem where
  product_title : Option String
  product_price : Option String
  product_url : Option String
  product_photo : Option String
  product_star_rating : Option String
deriving Repr, DecidableEq

structure AmazonResponse where
  data : List AmazonItem
deriving Repr, DecidableEq

structure GoogleItem where
  title : Option String
  price : Option String
  product_link : Option String
  thumbnail : Option String
  source : Option String
  rating : Option String
  reviews : Option String
deriving Repr, DecidableEq

structure GoogleResponse where
  shopping_results : List GoogleItem
deriving Repr, DecidableEq

/-- The aggregator's configuration: the three API keys read from the
environment in `__init__`, and the cache TTL in hours. -/
structure ProductSearchAggregator where
  ebay_app_id : Option String
  rapidapi_key : Option String
  serpapi_key : Option String
  cache_hours : Int

/-- Python truthiness of an optional string: `if not self.ebay_app_id`
is taken when the key is `None` or the empty string. -/
def pyFalsy : Option String → Bool
  | none => true
  | some s => s.isEmpty

/-- The network oracle: what each backend answers to a request built
from the keyword and `max_results`.  `.error` models `requests.get`
raising, a non-JSON body, or any other exception thrown before the
per-item loop. -/
structure Network where
  ebayResponse : String → Nat → Except PyErr EbayResponse
  amazonResponse : String → Nat → Except PyErr AmazonResponse
  googleResponse : String → Nat → Except PyErr GoogleResponse

/-- The Python `for` loop that appends one normalized dict per raw item
and lets an exception from the loop body abort the whole batch: the
first failing item makes the whole traversal fail. -/
def mapExcept (f : α → Except PyErr β) : List α → Except PyErr (List β)
  | [] => .ok []
  | a :: as =>
    match f a with
    | .error e => .error e
    | .ok b =>
      match mapExcept f as with
      | .error e => .error e
      | .ok bs => .ok (b :: bs)

/-! ## Per-item normalization (the loop bodies) -/

/-- Loop body of `search_ebay`: `float(...)` on the price raises on a
non-numeric string; a missing `__value__` defaults to the int `0`. -/
def normalize_ebay_item (item : EbayItem) : Except PyErr SearchResult :=
  let priceField := (item.sellingStatus.bind (·.currentPrice)).bind (·.value)
  let priceE : Except PyErr Rat :=
    match priceField with
    | none => .ok 0
    | some s => pyFloat s
  match priceE with
  | .error e => .error e
  | .ok p =>
    .ok { title := item.title.getD ""
          price := p
          currency := ((item.sellingStatus.bind (·.currentPrice)).bind (·.currencyId)).getD "USD"
          url := item.viewItemURL.getD ""
          image := item.galleryURL.getD ""
          platform := "eBay"
          extra := [("condition", (item.condition.bind (·.conditionDisplayName)).getD "")] }

/-- Loop body of `search_amazon_rapidapi`:
`float(item.get("product_price", "0").replace("$", "").replace(",", ""))`. -/
def normalize_amazon_item (item : AmazonItem) : Except PyErr SearchResult :=
  match pyFloat (removeChar ',' (removeChar '$' (item.product_price.getD "0"))) with
  | .error e => .error e
  | .ok p =>
    .ok { title := item.product_title.getD ""
          price := p
          currency := "USD"
          url := item.product_url.getD ""
          image := item.product_photo.getD ""
          platform := "Amazon"
          extra := [("rating", item.product_star_rating.getD "")] }

/-- Loop body of `search_google_shopping`: the only loop body with a
`try`/`except` around the price parse, so it is total. -/
def normalize_google_item (item : GoogleItem) : SearchResult :=
  let price_str := removeChar ',' (removeChar '$' (item.price.getD "$0"))
  let price : Rat :=
    match pyFloat price_str with
    | .ok p => p
    | .error _ => 0
  { title := item.title.getD ""
    price := price
    currency := "USD"
    url := item.product_link.getD ""
    image := item.thumbnail.getD ""
    platform := "Google Shopping"
    extra := [("source", item.source.getD ""), ("rating", item.rating.getD ""),
              ("reviews", item.reviews.getD "")] }

/-! ## Provider clients

Each fetch returns the outcome (`.error e` models the Python function
raising `e` to its caller) together with the number of HTTP requests it
performed. -/

def search_ebay (agg : ProductSearchAggregator) (net : Network)
    (keyword : String) (max_results : Nat) : Except PyErr (List SearchResult) × Nat :=
  if pyFalsy agg.ebay_app_id then (.ok [], 0)
  else
    match net.ebayResponse keyword max_results with
    | .error e => (.error e, 1)
    | .ok resp => (mapExcept normalize_ebay_item resp.item, 1)

def search_amazon_rapidapi (agg : ProductSearchAggregator) (net : Network)
    (keyword : String) (max_results : Nat) : Except PyErr (List SearchResult) × Nat :=
  if pyFalsy agg.rapidapi_key then (.ok [], 0)
  else
    match net.amazonResponse keyword max_results with
    | .error e => (.error e, 1)
    | .ok resp => (mapExcept normalize_amazon_item resp.data, 1)

def search_google_shopping (agg : ProductSearchAggregator) (net : Network)
    (keyword : String) (max_results : Nat) : Except PyErr (List SearchResult) × Nat :=
  if pyFalsy agg.serpapi_key then (.ok [], 0)
  else
    match net.googleResponse keyword max_results with
    | .error e => (.error e, 1)
    | .ok resp => (.ok (resp.shopping_results.map normalize_google_item), 1)

/-! ## Aggregator -/

inductive Provider where
  | eBay
  | amazon
  | googleShopping
deriving Repr, DecidableEq

/-- Registration order of the three futures submitted in `search_all`. -/
def registrationOrder : List Provider :=
  [Provider.eBay, Provider.amazon, Provider.googleShopping]

def provider_fetch (agg : ProductSearchAggregator) (net : Network)
    (keyword : String) (max_results : Nat) : Provider → Except PyErr (List SearchResult) × Nat
  | Provider.eBay => search_ebay agg net keyword max_results
  | Provider.amazon => search_amazon_rapidapi agg net keyword max_results
  | Provider.googleShopping => search_google_shopping agg net keyword max_results

/-- What one completed future contributes inside the `as_completed`
loop: its result list, or nothing when `future.result()` re-raises and
the `except` branch is taken. -/
def future_results (agg : ProductSearchAggregator) (net : Network)
    (keyword : String) (max_results : Nat) (p : Provider) : List SearchResult :=
  match (provider_fetch agg net keyword max_results p).1 with
  | .ok rs => rs
  | .error _ => []

/-- The `for future in as_completed(futures)` loop: `results` starts
empty and each completed future's contribution is appended
(`results.extend`), in completion order. -/
def search_all_fanout (agg : ProductSearchAggregator) (net : Network)
    (keyword : String) (max_results : Nat) (order : List Provider) : List SearchResult :=
  order.foldl (fun acc p => acc ++ future_results agg net keyword max_results p) []

/-! ## Cache store

One file per cache key.  A stored file either fails to load (corrupt
JSON, missing keys, bad timestamp — everything the `except` branch of
`_load_from_cache` catches) or holds the fields `_save_to_cache`
writes. -/

inductive CacheFile where
  | corrupt
  | valid (keyword : String) (max_results : Nat) (timestamp : Int) (results : List SearchResult)

def CacheStore : Type := String → Option CacheFile

def get_cache_key (keyword : String) (max_results : Nat) : String :=
  md5Hex (utf8Bytes (pyLower keyword ++ "_" ++ toString max_results))

/-- `_load_from_cache`: absent file, unreadable file, or an expired
timestamp (`datetime.now() > cached_time + timedelta(hours=...)`) all
yield `None`. -/
def load_from_cache (agg : ProductSearchAggregator) (store : CacheStore)
    (now : Int) (keyword : String) (max_results : Nat) : Option (List SearchResult) :=
  match store (get_cache_key keyword max_results) with
  | none => none
  | some CacheFile.corrupt => none
  | some (CacheFile.valid _ _ t rs) =>
    if now > t + agg.cache_hours * 3600 then none else some rs

/-- `_save_to_cache`: overwrites the file for this key with the current
timestamp and the result list. -/
def save_to_cache (store : CacheStore) (now : Int) (keyword : String)
    (max_results : Nat) (results : List SearchResult) : CacheStore :=
  fun k =>
    if k = get_cache_key keyword max_results then
      some (CacheFile.valid keyword max_results now results)
    else store k

/-- `search_all`: cache probe (when `use_cache`), fan-out/fan-in in
completion order `order`, then a cache write when `use_cache` holds and
the list is non-empty (Python truthiness of `results`). -/
def search_all (agg : ProductSearchAggregator) (net : Network) (order : List Provider)
    (store : CacheStore) (now : Int) (keyword : String) (max_results : Nat)
    (use_cache : Bool) : List SearchResult × CacheStore :=
  match (if use_cache then load_from_cache agg store now keyword max_results else none) with
  | some cached => (cached, store)
  | none =>
    let results := search_all_fanout agg net keyword max_results order
    if use_cache && !results.isEmpty then
      (results, save_to_cache store now keyword max_results results)
    else (results, store)

/-! ## The `/search-products` endpoint (`backend/main.py`) -/

structure ProductSearchRequest where
  product_name : String
  max_results : Nat

/-- The FastAPI `Field` constraints on `ProductSearchRequest`:
`min_length=1` on the name, `ge=1, le=50` on `max_results`. -/
def validRequest (req : ProductSearchRequest) : Prop :=
  1 ≤ req.product_name.length ∧ 1 ≤ req.max_results ∧ req.max_results ≤ 50

structure SearchProductsResponse where
  success : Bool
  search_term : String
  total_results : Nat
  products : List SearchResult
deriving Repr, DecidableEq

/-- The `/search-products` handler: `search_all(..., use_cache=True)`,
then `results[:max_results]`, `total_results = len(limited_results)`. -/
def search_products (agg : ProductSearchAggregator) (net : Network) (order : List Provider)
    (store : CacheStore) (now : Int) (req : ProductSearchRequest) :
    SearchProductsResponse × CacheStore :=
  let out := search_all agg net order store now req.product_name req.max_results true
  let limited := out.1.take req.max_results
  ({ success := true
     search_term := req.product_name
     total_results := limited.length
     products := limited }, out.2)

/-! ## Concrete fixtures for witnesses and counterexamples -/

def emptyStore : CacheStore := fun _ => none

/-- All three API keys configured, 24h cache (the `main.py` instantiation). -/
def aggAll : ProductSearchAggregator :=
  { ebay_app_id := some "EBAY-KEY", rapidapi_key := some "RAPID-KEY",
    serpapi_key := some "SERP-KEY", cache_hours := 24 }

def aggNoKeys : ProductSearchAggregator :=
  { ebay_app_id := none, rapidapi_key := none, serpapi_key := none, cache_hours := 24 }

def ebayItemW : EbayItem :=
  { title := some "Lamp eBay"
    sellingStatus := some { currentPrice := some { value := some "19.99", currencyId := some "USD" } }
    viewItemURL := some "http://ebay/lamp"
    galleryURL := some "http://ebay/lamp.jpg"
    condition := some { conditionDisplayName := some "New" } }

def ebayItemPlain : EbayItem :=
  { title := none, sellingStatus := none, viewItemURL := none, galleryURL := none,
    condition := none }

def ebayItemBadPrice : EbayItem :=
  { title := some "Broken"
    sellingStatus := some { currentPrice := some { value := some "abc", currencyId := some "USD" } }
    viewItemURL := none, galleryURL := none, condition := none }

def amazonItemW : AmazonItem :=
  { product_title := some "Lamp Amazon", product_price := some "$1,299.00",
    product_url := some "http://amazon/lamp", product_photo := some "http://amazon/lamp.jpg",
    product_star_rating := some "4.5" }

def amazonItemBadPrice : AmazonItem :=
  { product_title := some "Broken Amazon", product_price := some "N/A",
    product_url := none, product_photo := none, product_star_rating := none }

def googleItemBadPrice : GoogleItem :=
  { title := some "Broken Google", price := some "N/A", product_link := none,
    thumbnail := none, source := none, rating := none, reviews := none }

def googleItemW : GoogleItem :=
  { title := some "Lamp Google", price := some "$150", product_link := some "http://g/lamp",
    thumbnail := some "http://g/lamp.jpg", source := some "shop.example",
    rating := some "4.2", reviews := some "17" }

/-- All three backends answer, each with one distinct item. -/
def netGood : Network :=
  { ebayResponse := fun _ _ => .ok { item := [ebayItemW] }
    amazonResponse := fun _ _ => .ok { data := [amazonItemW] }
    googleResponse := fun _ _ => .ok { shopping_results := [googleItemW] } }

/-- Amazon raises a transport error; the other two answer. -/
def netAmazonDown : Network :=
  { ebayResponse := fun _ _ => .ok { item := [ebayItemW] }
    amazonResponse := fun _ _ => .error (.transportError "boom")
    googleResponse := fun _ _ => .ok { shopping_results := [googleItemW] } }

/-- The eBay backend returns 6 raw items (more than the requested 5). -/
def netEbay6 : Network :=
  { ebayResponse := fun _ _ => .ok { item := List.replicate 6 ebayItemPlain }
    amazonResponse := fun _ _ => .ok { data := [] }
    googleResponse := fun _ _ => .ok { shopping_results := [] } }

/-- Amazon answers with an otherwise valid batch whose second item has a
non-numeric price. -/
def netAmazonBadItem : Network :=
  { ebayResponse := fun _ _ => .ok { item := [] }
    amazonResponse := fun _ _ => .ok { data := [amazonItemW, amazonItemBadPrice] }
    googleResponse := fun _ _ => .ok { shopping_results := [] } }

/-- eBay answers with an otherwise valid batch whose second item has a
non-numeric price. -/
def netEbayBadItem : Network :=
  { ebayResponse := fun _ _ => .ok { item := [ebayItemW, ebayItemBadPrice] }
    amazonResponse := fun _ _ => .ok { data := [] }
    googleResponse := fun _ _ => .ok { shopping_results := [] } }

def resultW : SearchResult :=
  { title := "Cached Lamp", price := 1999/100, currency := "USD", url := "u", image := "i",
    platform := "eBay", extra := [] }

/-- A store holding one well-formed entry for `("shoes", 10)` written at
time `0`. -/
def storeValidW : CacheStore :=
  fun k => if k = get_cache_key "shoes" 10 then some (CacheFile.valid "shoes" 10 0 [resultW])
           else none

/-! ## Helper lemmas -/

theorem foldl_append_eq_flatten {α β : Type} (f : α → List β) :
    ∀ (l : List α) (init : List β),
      l.foldl (fun acc a => acc ++ f a) init = init ++ (l.map f).flatten
  | [], _ => by simp
  | a :: l, init => by
    simp only [List.foldl_cons, List.map_cons, List.flatten_cons]
    rw [foldl_append_eq_flatten f l (init ++ f a), List.append_assoc]

/-- On the no-cache path, `search_all` returns the providers'
contributions concatenated in completion order. -/
theorem search_all_nocache_fst (agg : ProductSearchAggregator) (net : Network)
    (order : List Provider) (store : CacheStore) (now : Int) (keyword : String)
    (max_results : Nat) :
    (search_all agg net order store now keyword max_results false).1
      = (order.map (future_results agg net keyword max_results)).flatten := by
  simp [search_all, search_all_fanout, foldl_append_eq_flatten]

theorem flatten_map_filter_ne {α β : Type} [DecidableEq α] (f : α → List β) (p : α)
    (hp : f p = []) : ∀ l : List α,
    (((l.filter (fun q => q != p)).map f).flatten : List β) = (l.map f).flatten
  | [] => rfl
  | a :: l => by
    have ih := flatten_map_filter_ne f p hp l
    by_cases h : a = p
    · subst h
      simp [List.filter_cons, hp, ih]
    · simp [List.filter_cons, h, ih]

theorem perm_flatten_of_perm {α : Type} {l₁ l₂ : List (List α)} (h : l₁.Perm l₂) :
    l₁.flatten.Perm l₂.flatten := by
  induction h with
  | nil => exact List.Perm.refl _
  | cons x _ ih => simpa using ih.append_left x
  | swap x y l =>
    simp only [List.flatten_cons, ← List.append_assoc]
    exact (@List.perm_append_comm _ y x).append_right l.flatten
  | trans _ _ ih₁ ih₂ => exact ih₁.trans ih₂

theorem mapExcept_ok_length {α β : Type} (f : α → Except PyErr β) :
    ∀ (l : List α) (bs : List β), mapExcept f l = .ok bs → bs.length = l.length
  | [], bs => by intro h; cases h; rfl
  | a :: l, bs => by
    intro h
    unfold mapExcept at h
    cases hf : f a with
    | error e => rw [hf] at h; cases h
    | ok b =>
      rw [hf] at h
      cases hrest : mapExcept f l with
      | error e => rw [hrest] at h; cases h
      | ok bs' =>
        rw [hrest] at h
        cases h
        simp [mapExcept_ok_length f l bs' hrest]

theorem mapExcept_error_of_mem {α β : Type} (f : α → Except PyErr β) :
    ∀ (l : List α) (a : α) (e : PyErr), a ∈ l → f a = .error e →
      ∃ e', mapExcept f l = .error e'
  | [], a, e => by intro h _; cases h
  | b :: l, a, e => by
    intro hmem hf
    unfold mapExcept
    cases hb : f b with
    | error eb => exact ⟨eb, rfl⟩
    | ok vb =>
      cases hmem with
      | head => rw [hb] at hf; cases hf
      | tail _ hmem' =>
        obtain ⟨e', he'⟩ := mapExcept_error_of_mem f l a e hmem' hf
        rw [he']
        exact ⟨e', rfl⟩

/-- A freshly saved entry is returned by a read within the TTL window. -/
theorem load_save_fresh (agg : ProductSearchAggregator) (store : CacheStore)
    (now₁ now₂ : Int) (keyword : String) (max_results : Nat)
    (results : List SearchResult)
    (h : now₂ ≤ now₁ + agg.cache_hours * 3600) :
    load_from_cache agg (save_to_cache store now₁ keyword max_results results)
      now₂ keyword max_results = some results := by
  have hk : save_to_cache store now₁ keyword max_results results
      (get_cache_key keyword max_results)
      = some (CacheFile.valid keyword max_results now₁ results) := by
    unfold save_to_cache
    simp
  unfold load_from_cache
  rw [hk]
  show (if now₂ > now₁ + agg.cache_hours * 3600 then none else some results) = some results
  rw [if_neg (by omega)]

/-- On a cache hit, `search_all` returns the cached list verbatim and
leaves the store untouched. -/
theorem search_all_hit (agg : ProductSearchAggregator) (net : Network)
    (order : List Provider) (store : CacheStore) (now : Int) (keyword : String)
    (max_results : Nat) (rs : List SearchResult)
    (hhit : load_from_cache agg store now keyword max_results = some rs) :
    search_all agg net order store now keyword max_results true = (rs, store) := by
  unfold search_all
  rw [hhit]
  rfl

/-- On a cache miss, `search_all` fans out and writes back exactly when
the concatenated list is non-empty. -/
theorem search_all_miss (agg : ProductSearchAggregator) (net : Network)
    (order : List Provider) (store : CacheStore) (now : Int) (keyword : String)
    (max_results : Nat)
    (hmiss : load_from_cache agg store now keyword max_results = none) :
    search_all agg net order store now keyword max_results true
      = (if (search_all_fanout agg net keyword max_results order).isEmpty then
           (search_all_fanout agg net keyword max_results order, store)
         else
           (search_all_fanout agg net keyword max_results order,
            save_to_cache store now keyword max_results
              (search_all_fanout agg net keyword max_results order))) := by
  unfold search_all
  rw [hmiss]
  cases hE : (search_all_fanout agg net keyword max_results order).isEmpty <;> simp [hE]

/-! ## The claims -/

/-- C1: Partial failure isolation — when one provider's fetch raises
during fan-out, `search_all` (here with `use_cache = false`) still
returns a plain list: the concatenation, in completion order, of the
remaining providers' contributions; the exception is absorbed by the
`except` branch of the fan-in loop and never escapes. -/
theorem C1_partial_failure_isolation
    (agg : ProductSearchAggregator) (net : Network) (order : List Provider)
    (store : CacheStore) (now : Int) (keyword : String) (max_results : Nat)
    (p : Provider) (e : PyErr)
    (herr : (provider_fetch agg net keyword max_results p).1 = .error e) :
    (search_all agg net order store now keyword max_results false).1
      = (((order.filter (fun q => q != p)).map
          (future_results agg net keyword max_results)).flatten : List SearchResult) := by
  have hp : future_results agg net keyword max_results p = [] := by
    unfold future_results
    rw [herr]
  rw [search_all_nocache_fst, flatten_map_filter_ne _ p hp order]

/-- Witness for C1: Amazon raises a transport error, eBay and Google
Shopping answer; the call returns their concatenation. -/
theorem C1_partial_failure_isolation_witness :
    (provider_fetch aggAll netAmazonDown "x" 10 Provider.amazon).1
        = Except.error (PyErr.transportError "boom") ∧
    (search_all aggAll netAmazonDown registrationOrder emptyStore 0 "x" 10 false).1
      = (((registrationOrder.filter (fun q => q != Provider.amazon)).map
          (future_results aggAll netAmazonDown "x" 10)).flatten : List SearchResult) :=
  ⟨by decide, C1_partial_failure_isolation aggAll netAmazonDown registrationOrder emptyStore 0
      "x" 10 Provider.amazon (PyErr.transportError "boom") (by decide)⟩

/-- C2 counterexample: with completion order Amazon, eBay, Google
Shopping — reachable because `as_completed` yields futures in the order
they finish — `search_all` on a cache miss does not return the
registration-order concatenation eBay ++ Amazon ++ Google Shopping. -/
theorem C2_merge_ordering_counterexample :
    (search_all aggAll netGood
        [Provider.amazon, Provider.eBay, Provider.googleShopping] emptyStore 0 "x" 10 false).1
      ≠ future_results aggAll netGood "x" 10 Provider.eBay
          ++ future_results aggAll netGood "x" 10 Provider.amazon
          ++ future_results aggAll netGood "x" 10 Provider.googleShopping := by decide

/-- C2 (amended): on a cache miss the returned list is the concatenation
of the providers' result lists in completion order (some permutation of
the three registered providers).  It is therefore a permutation — at
provider-block granularity — of the registration-order concatenation,
and each provider's own internal ordering is preserved as a contiguous
block; no cross-provider re-ranking or sorting is applied.  The
registration order itself is not guaranteed. -/
theorem C2_merge_ordering
    (agg : ProductSearchAggregator) (net : Network) (order : List Provider)
    (store : CacheStore) (now : Int) (keyword : String) (max_results : Nat)
    (h : order.Perm registrationOrder) :
    (search_all agg net order store now keyword max_results false).1
        = ((order.map (future_results agg net keyword max_results)).flatten : List SearchResult) ∧
    ((search_all agg net order store now keyword max_results false).1).Perm
        ((search_all agg net registrationOrder store now keyword max_results false).1) ∧
    ∀ p ∈ order, (future_results agg net keyword max_results p)
        <:+: (search_all agg net order store now keyword max_results false).1 := by
  refine ⟨search_all_nocache_fst agg net order store now keyword max_results, ?_, ?_⟩
  · rw [search_all_nocache_fst, search_all_nocache_fst]
    exact perm_flatten_of_perm (h.map _)
  · intro p hp
    rw [search_all_nocache_fst]
    obtain ⟨s, t, rfl⟩ := List.append_of_mem hp
    exact ⟨(s.map (future_results agg net keyword max_results)).flatten,
           (t.map (future_results agg net keyword max_results)).flatten, by simp⟩

/-- Witness for C2 at the completion order Amazon, eBay, Google. -/
theorem C2_merge_ordering_witness :
    (([Provider.amazon, Provider.eBay, Provider.googleShopping] : List Provider).Perm
        registrationOrder) ∧
    ((search_all aggAll netGood [Provider.amazon, Provider.eBay, Provider.googleShopping]
        emptyStore 0 "x" 10 false).1).Perm
      ((search_all aggAll netGood registrationOrder emptyStore 0 "x" 10 false).1) ∧
    future_results aggAll netGood "x" 10 Provider.amazon
      <:+: (search_all aggAll netGood [Provider.amazon, Provider.eBay, Provider.googleShopping]
              emptyStore 0 "x" 10 false).1 := by
  have hperm : (([Provider.amazon, Provider.eBay, Provider.googleShopping] : List Provider).Perm
      registrationOrder) :=
    List.Perm.swap Provider.eBay Provider.amazon [Provider.googleShopping]
  have hthm := C2_merge_ordering aggAll netGood
      [Provider.amazon, Provider.eBay, Provider.googleShopping] emptyStore 0 "x" 10 hperm
  exact ⟨hperm, hthm.2.1, hthm.2.2 Provider.amazon (by decide)⟩

set_option maxRecDepth 40000 in
/-- C3 counterexample: `_get_cache_key` lowercases the keyword but does
not trim it, so leading/trailing whitespace yields a different
fingerprint, contradicting the claimed whitespace invariance. -/
theorem C3_fingerprint_counterexample :
    get_cache_key " Shoes " 10 ≠ get_cache_key "shoes" 10 := by decide

set_option maxRecDepth 40000 in
/-- C3 (amended): the fingerprint is invariant under case differences
(keywords with the same lowercasing hash identically), fingerprints for
the same keyword with limits 10 and 20 are distinct, but the fingerprint
is NOT invariant under leading/trailing whitespace: the keyword is
lowercased, never trimmed. -/
theorem C3_fingerprint_normalization :
    (∀ (k₁ k₂ : String) (n : Nat), pyLower k₁ = pyLower k₂ →
        get_cache_key k₁ n = get_cache_key k₂ n) ∧
    get_cache_key " Shoes " 10 ≠ get_cache_key "shoes" 10 ∧
    get_cache_key "shoes" 10 ≠ get_cache_key "shoes" 20 :=
  ⟨fun k₁ k₂ n h => by unfold get_cache_key; rw [h], by decide, by decide⟩

/-- Witness for C3's universally quantified part at `"ShOeS"`/`"shoes"`. -/
theorem C3_fingerprint_normalization_witness :
    pyLower "ShOeS" = pyLower "shoes" ∧
    get_cache_key "ShOeS" 10 = get_cache_key "shoes" 10 :=
  ⟨by decide, C3_fingerprint_normalization.1 "ShOeS" "shoes" 10 (by decide)⟩

/-- C4 counterexample: with `max_results = 5` and a backend response of
6 raw items, the eBay client succeeds and returns all 6 normalized
results — more than `maxResults`, because no client-side truncation is
performed. -/
theorem C4_truncation_counterexample :
    (search_ebay aggAll netEbay6 "k" 5).1
        = Except.ok (future_results aggAll netEbay6 "k" 5 Provider.eBay) ∧
    5 < (future_results aggAll netEbay6 "k" 5 Provider.eBay).length :=
  ⟨by decide, by decide⟩

/-- C4 (amended): each provider client passes `maxResults` to the
backend as a request parameter but performs no client-side truncation:
whenever a fetch succeeds, it returns exactly one normalized
`SearchResult` per raw item of the backend's response, however many
there are. -/
theorem C4_no_client_truncation
    (agg : ProductSearchAggregator) (net : Network) (keyword : String) (max_results : Nat) :
    (∀ resp rs, pyFalsy agg.ebay_app_id = false →
        net.ebayResponse keyword max_results = .ok resp →
        (search_ebay agg net keyword max_results).1 = .ok rs →
        rs.length = resp.item.length) ∧
    (∀ resp rs, pyFalsy agg.rapidapi_key = false →
        net.amazonResponse keyword max_results = .ok resp →
        (search_amazon_rapidapi agg net keyword max_results).1 = .ok rs →
        rs.length = resp.data.length) ∧
    (∀ resp rs, pyFalsy agg.serpapi_key = false →
        net.googleResponse keyword max_results = .ok resp →
        (search_google_shopping agg net keyword max_results).1 = .ok rs →
        rs.length = resp.shopping_results.length) := by
  refine ⟨?_, ?_, ?_⟩
  · intro resp rs hkey hnet hfetch
    unfold search_ebay at hfetch
    rw [hkey, hnet] at hfetch
    simp at hfetch
    exact mapExcept_ok_length _ _ _ hfetch
  · intro resp rs hkey hnet hfetch
    unfold search_amazon_rapidapi at hfetch
    rw [hkey, hnet] at hfetch
    simp at hfetch
    exact mapExcept_ok_length _ _ _ hfetch
  · intro resp rs hkey hnet hfetch
    unfold search_google_shopping at hfetch
    rw [hkey, hnet] at hfetch
    simp at hfetch
    rw [← hfetch]
    simp

/-- Witness for C4 at the 6-item eBay response with `max_results = 5`. -/
theorem C4_no_client_truncation_witness :
    pyFalsy aggAll.ebay_app_id = false ∧
    netEbay6.ebayResponse "k" 5 = Except.ok { item := List.replicate 6 ebayItemPlain } ∧
    (search_ebay aggAll netEbay6 "k" 5).1
        = Except.ok (future_results aggAll netEbay6 "k" 5 Provider.eBay) ∧
    (future_results aggAll netEbay6 "k" 5 Provider.eBay).length
        = (List.replicate 6 ebayItemPlain).length :=
  ⟨by decide, rfl, by decide,
   (C4_no_client_truncation aggAll netEbay6 "k" 5).1 { item := List.replicate 6 ebayItemPlain }
     (future_results aggAll netEbay6 "k" 5 Provider.eBay) (by decide) rfl (by decide)⟩

/-- C5 counterexample: one malformed item (non-numeric price) in an
otherwise valid Amazon batch makes the fetch raise a `ValueError`,
aborting the whole batch — it is not skipped and the fetch does not
return a list. -/
theorem C5_fetch_totality_counterexample :
    (search_amazon_rapidapi aggAll netAmazonBadItem "x" 10).1
      = Except.error (PyErr.valueError "N/A") := by decide

/-- C5 (amended): a provider whose credentials are falsy returns an
empty list without a network call, but a provider that is unavailable
(transport error) raises, and — for the eBay and Amazon clients — a
single malformed item makes the whole fetch raise; only the Google
Shopping client is total on item contents.  These exceptions are
absorbed by `search_all`'s fan-in loop, which converts them to empty
contributions. -/
theorem C5_fetch_exception_behavior
    (agg : ProductSearchAggregator) (net : Network) (keyword : String) (max_results : Nat) :
    (pyFalsy agg.ebay_app_id = true → search_ebay agg net keyword max_results = (.ok [], 0)) ∧
    (∀ e, pyFalsy agg.rapidapi_key = false →
        net.amazonResponse keyword max_results = .error e →
        search_amazon_rapidapi agg net keyword max_results = (.error e, 1)) ∧
    (∀ resp item e, pyFalsy agg.rapidapi_key = false →
        net.amazonResponse keyword max_results = .ok resp →
        item ∈ resp.data → normalize_amazon_item item = .error e →
        ∃ e', (search_amazon_rapidapi agg net keyword max_results).1 = .error e') ∧
    (∀ resp, pyFalsy agg.serpapi_key = false →
        net.googleResponse keyword max_results = .ok resp →
        (search_google_shopping agg net keyword max_results).1
          = .ok (resp.shopping_results.map normalize_google_item)) ∧
    (∀ (p : Provider) (e : PyErr),
        (provider_fetch agg net keyword max_results p).1 = .error e →
        future_results agg net keyword max_results p = []) ∧
    (∀ e, pyFalsy agg.ebay_app_id = false →
        net.ebayResponse keyword max_results = .error e →
        search_ebay agg net keyword max_results = (.error e, 1)) ∧
    (∀ resp item e, pyFalsy agg.ebay_app_id = false →
        net.ebayResponse keyword max_results = .ok resp →
        item ∈ resp.item → normalize_ebay_item item = .error e →
        ∃ e', (search_ebay agg net keyword max_results).1 = .error e') := by
  refine ⟨?_, ?_, ?_, ?_, ?_, ?_, ?_⟩
  · intro h
    unfold search_ebay
    rw [h]
    rfl
  · intro e hkey hnet
    unfold search_amazon_rapidapi
    rw [hkey, hnet]
    simp
  · intro resp item e hkey hnet hmem hitem
    obtain ⟨e', he'⟩ := mapExcept_error_of_mem normalize_amazon_item resp.data item e hmem hitem
    refine ⟨e', ?_⟩
    unfold search_amazon_rapidapi
    rw [hkey, hnet]
    simp [he']
  · intro resp hkey hnet
    unfold search_google_shopping
    rw [hkey, hnet]
    simp
  · intro p e herr
    unfold future_results
    rw [herr]
  · intro e hkey hnet
    unfold search_ebay
    rw [hkey, hnet]
    simp
  · intro resp item e hkey hnet hmem hitem
    obtain ⟨e', he'⟩ := mapExcept_error_of_mem normalize_ebay_item resp.item item e hmem hitem
    refine ⟨e', ?_⟩
    unfold search_ebay
    rw [hkey, hnet]
    simp [he']

/-- Witness for C5: a malformed Amazon item aborts the Amazon batch and
a malformed eBay item aborts the eBay batch. -/
theorem C5_fetch_exception_behavior_witness :
    (pyFalsy aggAll.rapidapi_key = false ∧
     netAmazonBadItem.amazonResponse "x" 10
        = Except.ok { data := [amazonItemW, amazonItemBadPrice] } ∧
     amazonItemBadPrice ∈ [amazonItemW, amazonItemBadPrice] ∧
     normalize_amazon_item amazonItemBadPrice = Except.error (PyErr.valueError "N/A") ∧
     ∃ e', (search_amazon_rapidapi aggAll netAmazonBadItem "x" 10).1 = Except.error e') ∧
    (pyFalsy aggAll.ebay_app_id = false ∧
     netEbayBadItem.ebayResponse "x" 10
        = Except.ok { item := [ebayItemW, ebayItemBadPrice] } ∧
     ebayItemBadPrice ∈ [ebayItemW, ebayItemBadPrice] ∧
     normalize_ebay_item ebayItemBadPrice = Except.error (PyErr.valueError "abc") ∧
     ∃ e', (search_ebay aggAll netEbayBadItem "x" 10).1 = Except.error e') :=
  ⟨⟨by decide, rfl, by decide, by decide,
    (C5_fetch_exception_behavior aggAll netAmazonBadItem "x" 10).2.2.1
      { data := [amazonItemW, amazonItemBadPrice] } amazonItemBadPrice
      (PyErr.valueError "N/A") (by decide) rfl (by decide) (by decide)⟩,
   ⟨by decide, rfl, by decide, by decide,
    (C5_fetch_exception_behavior aggAll netEbayBadItem "x" 10).2.2.2.2.2.2
      { item := [ebayItemW, ebayItemBadPrice] } ebayItemBadPrice
      (PyErr.valueError "abc") (by decide) rfl (by decide) (by decide)⟩⟩

/-- C6 counterexample: an eBay raw item with the non-numeric price
string `"abc"` makes normalization raise a `ValueError` instead of
producing `price = 0.0`, refuting the claim for the eBay client. -/
theorem C6_price_coercion_counterexample :
    normalize_ebay_item ebayItemBadPrice = Except.error (PyErr.valueError "abc") := by decide

/-- C6 (amended): an absent price coerces to `price = 0.0` and
`currency = "USD"` in every client, and the Google Shopping client also
coerces a non-numeric price to `0.0`; but in the eBay and Amazon clients
a non-numeric price raises a `ValueError` (see the counterexample). -/
theorem C6_price_coercion :
    (∀ (item : GoogleItem) (e : PyErr),
        pyFloat (removeChar ',' (removeChar '$' (item.price.getD "$0"))) = .error e →
        (normalize_google_item item).price = 0 ∧ (normalize_google_item item).currency = "USD") ∧
    (∀ item : AmazonItem, item.product_price = none →
        ∃ r, normalize_amazon_item item = .ok r ∧ r.price = 0 ∧ r.currency = "USD") ∧
    (∀ item : EbayItem, item.sellingStatus = none →
        ∃ r, normalize_ebay_item item = .ok r ∧ r.price = 0 ∧ r.currency = "USD") ∧
    (∀ item : GoogleItem, item.price = none →
        (normalize_google_item item).price = 0 ∧ (normalize_google_item item).currency = "USD") ∧
    (∀ (item : AmazonItem) (s : String) (e : PyErr), item.product_price = some s →
        pyFloat (removeChar ',' (removeChar '$' s)) = .error e →
        normalize_amazon_item item = .error e) ∧
    (∀ (item : EbayItem) (s : String) (e : PyErr),
        (item.sellingStatus.bind (·.currentPrice)).bind (·.value) = some s →
        pyFloat s = .error e →
        normalize_ebay_item item = .error e) := by
  refine ⟨?_, ?_, ?_, ?_, ?_, ?_⟩
  · intro item e he
    simp only [normalize_google_item]
    rw [he]
    simp
  · intro item h
    have h0 : pyFloat (removeChar ',' (removeChar '$' ((none : Option String).getD "0")))
        = .ok 0 := by decide
    unfold normalize_amazon_item
    rw [h, h0]
    exact ⟨_, rfl, rfl, rfl⟩
  · intro item h
    unfold normalize_ebay_item
    rw [h]
    exact ⟨_, rfl, rfl, rfl⟩
  · intro item h
    have h0 : pyFloat (removeChar ',' (removeChar '$' ((none : Option String).getD "$0")))
        = .ok 0 := by decide
    simp only [normalize_google_item]
    rw [h, h0]
    simp
  · intro item s e h he
    simp only [normalize_amazon_item, h, Option.getD_some, he]
  · intro item s e h he
    simp only [normalize_ebay_item, h, he]

/-- Witness for C6 at the Google item with price `"N/A"`. -/
theorem C6_price_coercion_witness :
    pyFloat (removeChar ',' (removeChar '$' (googleItemBadPrice.price.getD "$0")))
        = Except.error (PyErr.valueError "N/A") ∧
    (normalize_google_item googleItemBadPrice).price = 0 ∧
    (normalize_google_item googleItemBadPrice).currency = "USD" :=
  ⟨by decide,
   (C6_price_coercion.1 googleItemBadPrice (PyErr.valueError "N/A") (by decide)).1,
   (C6_price_coercion.1 googleItemBadPrice (PyErr.valueError "N/A") (by decide)).2⟩

/-- C7: a cache read returns nothing when no entry exists, returns
nothing when the stored state is corrupt or unreadable (no exception
reaches the caller), and for a well-formed entry written at `t` it
returns the entry strictly within the TTL window (`t + ttl - ε`) and
nothing strictly past it (`t + ttl + ε`); expiry is the strict
comparison `now > t + ttl`. -/
theorem C7_cache_read_semantics
    (agg : ProductSearchAggregator) (store : CacheStore) (keyword : String)
    (max_results : Nat) :
    (∀ now : Int, store (get_cache_key keyword max_results) = none →
        load_from_cache agg store now keyword max_results = none) ∧
    (∀ now : Int, store (get_cache_key keyword max_results) = some CacheFile.corrupt →
        load_from_cache agg store now keyword max_results = none) ∧
    (∀ (kw0 : String) (n0 : Nat) (t : Int) (rs : List SearchResult),
        store (get_cache_key keyword max_results) = some (CacheFile.valid kw0 n0 t rs) →
        ∀ ε : Int, 0 < ε →
          load_from_cache agg store (t + agg.cache_hours * 3600 + ε) keyword max_results
              = none ∧
          load_from_cache agg store (t + agg.cache_hours * 3600 - ε) keyword max_results
              = some rs) := by
  refine ⟨?_, ?_, ?_⟩
  · intro now h
    unfold load_from_cache
    rw [h]
  · intro now h
    unfold load_from_cache
    rw [h]
  · intro kw0 n0 t rs h ε hε
    constructor
    · unfold load_from_cache
      rw [h]
      show (if t + agg.cache_hours * 3600 + ε > t + agg.cache_hours * 3600 then none
            else some rs) = none
      rw [if_pos (by omega)]
    · unfold load_from_cache
      rw [h]
      show (if t + agg.cache_hours * 3600 - ε > t + agg.cache_hours * 3600 then none
            else some rs) = some rs
      rw [if_neg (by omega)]

/-- Witness for C7: an empty store, and a store holding one entry
written at time 0, read one second before and after the 24h TTL. -/
theorem C7_cache_read_semantics_witness :
    emptyStore (get_cache_key "shoes" 10) = none ∧
    load_from_cache aggAll emptyStore 0 "shoes" 10 = none ∧
    storeValidW (get_cache_key "shoes" 10) = some (CacheFile.valid "shoes" 10 0 [resultW]) ∧
    load_from_cache aggAll storeValidW (0 + aggAll.cache_hours * 3600 + 1) "shoes" 10 = none ∧
    load_from_cache aggAll storeValidW (0 + aggAll.cache_hours * 3600 - 1) "shoes" 10
      = some [resultW] := by
  have hv : storeValidW (get_cache_key "shoes" 10)
      = some (CacheFile.valid "shoes" 10 0 [resultW]) := by
    unfold storeValidW
    simp
  have hc := C7_cache_read_semantics aggAll storeValidW "shoes" 10
  have he := C7_cache_read_semantics aggAll emptyStore "shoes" 10
  exact ⟨rfl, he.1 0 rfl, hv, (hc.2.2 "shoes" 10 0 [resultW] hv 1 (by decide)).1,
         (hc.2.2 "shoes" 10 0 [resultW] hv 1 (by decide)).2⟩

/-- C8: writing a result list under the query's fingerprint and reading
it back before the TTL elapses returns an equal list; and a second
identical `search_all` call within the TTL window (with `use_cache`)
returns the cached list verbatim — the same pair `(results, store)` as
the first call, for any network behaviour and completion order on the
second call, with no re-merge and no re-truncation. -/
theorem C8_cache_round_trip
    (agg : ProductSearchAggregator) (net net₂ : Network) (order order₂ : List Provider)
    (store : CacheStore) (now₁ now₂ : Int) (keyword : String) (max_results : Nat)
    (r₁ : List SearchResult) (store₁ : CacheStore) (results : List SearchResult) :
    (results ≠ [] → now₂ ≤ now₁ + agg.cache_hours * 3600 →
        load_from_cache agg (save_to_cache store now₁ keyword max_results results)
          now₂ keyword max_results = some results) ∧
    (load_from_cache agg store now₁ keyword max_results = none →
        search_all agg net order store now₁ keyword max_results true = (r₁, store₁) →
        r₁ ≠ [] → now₂ ≤ now₁ + agg.cache_hours * 3600 →
        search_all agg net₂ order₂ store₁ now₂ keyword max_results true = (r₁, store₁)) := by
  constructor
  · intro _ h2
    exact load_save_fresh agg store now₁ now₂ keyword max_results results h2
  · intro hmiss hfirst hne httl
    rw [search_all_miss agg net order store now₁ keyword max_results hmiss] at hfirst
    cases hE : (search_all_fanout agg net keyword max_results order).isEmpty with
    | true =>
      rw [hE] at hfirst
      simp only [if_true] at hfirst
      rw [Prod.mk.injEq] at hfirst
      obtain ⟨h1, _⟩ := hfirst
      rw [List.isEmpty_iff] at hE
      rw [hE] at h1
      exact absurd h1.symm hne
    | false =>
      rw [hE] at hfirst
      simp only [Bool.false_eq_true, if_false] at hfirst
      rw [Prod.mk.injEq] at hfirst
      obtain ⟨h1, h2⟩ := hfirst
      rw [← h1, ← h2] at *
      exact search_all_hit agg net₂ order₂ _ now₂ keyword max_results _
        (load_save_fresh agg store now₁ now₂ keyword max_results _ httl)

/-- Witness for C8: a cold cache, a first search that stores its
results, and an identical second search at the same timestamp. -/
theorem C8_cache_round_trip_witness :
    load_from_cache aggAll emptyStore 0 "lamp" 10 = none ∧
    (search_all aggAll netGood registrationOrder emptyStore 0 "lamp" 10 true).1 ≠ [] ∧
    ((0 : Int) ≤ 0 + aggAll.cache_hours * 3600) ∧
    search_all aggAll netGood registrationOrder
        (search_all aggAll netGood registrationOrder emptyStore 0 "lamp" 10 true).2
        0 "lamp" 10 true
      = ((search_all aggAll netGood registrationOrder emptyStore 0 "lamp" 10 true).1,
         (search_all aggAll netGood registrationOrder emptyStore 0 "lamp" 10 true).2) :=
  ⟨rfl, by decide, by decide,
   (C8_cache_round_trip aggAll netGood netGood registrationOrder registrationOrder emptyStore
      0 0 "lamp" 10
      (search_all aggAll netGood registrationOrder emptyStore 0 "lamp" 10 true).1
      (search_all aggAll netGood registrationOrder emptyStore 0 "lamp" 10 true).2 []).2
     rfl rfl (by decide) (by decide)⟩

/-- C9: a provider whose required API credential is absent (`None`)
returns an empty result list immediately and performs zero network
calls (the call count is 0). -/
theorem C9_no_credentials_disablement
    (agg : ProductSearchAggregator) (net : Network) (keyword : String) (max_results : Nat) :
    (agg.ebay_app_id = none → search_ebay agg net keyword max_results = (.ok [], 0)) ∧
    (agg.rapidapi_key = none → search_amazon_rapidapi agg net keyword max_results = (.ok [], 0)) ∧
    (agg.serpapi_key = none → search_google_shopping agg net keyword max_results = (.ok [], 0)) := by
  refine ⟨fun h => ?_, fun h => ?_, fun h => ?_⟩ <;>
    simp [search_ebay, search_amazon_rapidapi, search_google_shopping, pyFalsy, h]

/-- Witness for C9 with no credentials configured. -/
theorem C9_no_credentials_disablement_witness :
    aggNoKeys.ebay_app_id = none ∧
    search_ebay aggNoKeys netGood "x" 10 = (.ok [], 0) ∧
    search_amazon_rapidapi aggNoKeys netGood "x" 10 = (.ok [], 0) ∧
    search_google_shopping aggNoKeys netGood "x" 10 = (.ok [], 0) :=
  ⟨rfl, (C9_no_credentials_disablement aggNoKeys netGood "x" 10).1 rfl,
   (C9_no_credentials_disablement aggNoKeys netGood "x" 10).2.1 rfl,
   (C9_no_credentials_disablement aggNoKeys netGood "x" 10).2.2 rfl⟩

/-- C10: the `/search-products` response's `products` field is the first
`max_results` elements of the aggregated list (so its length never
exceeds `max_results`, which the request model validates to lie between
1 and 50), and `total_results` is the length of that truncated list. -/
theorem C10_endpoint_truncation
    (agg : ProductSearchAggregator) (net : Network) (order : List Provider)
    (store : CacheStore) (now : Int) (req : ProductSearchRequest)
    (hv : validRequest req) :
    (search_products agg net order store now req).1.products
      = (search_all agg net order store now req.product_name req.max_results true).1.take
          req.max_results ∧
    (search_products agg net order store now req).1.products.length ≤ req.max_results ∧
    (search_products agg net order store now req).1.total_results
      = (search_products agg net order store now req).1.products.length ∧
    1 ≤ req.max_results ∧ req.max_results ≤ 50 := by
  refine ⟨rfl, ?_, rfl, hv.2.1, hv.2.2⟩
  exact List.length_take_le _ _

/-- Witness for C10 at a valid concrete request. -/
theorem C10_endpoint_truncation_witness :
    validRequest { product_name := "lamp", max_results := 10 } ∧
    (search_products aggAll netGood registrationOrder emptyStore 0
        { product_name := "lamp", max_results := 10 }).1.products.length ≤ 10 :=
  ⟨by unfold validRequest; exact ⟨by decide, by decide, by decide⟩,
   (C10_endpoint_truncation aggAll netGood registrationOrder emptyStore 0
      { product_name := "lamp", max_results := 10 }
      (by unfold validRequest; exact ⟨by decide, by decide, by decide⟩)).2.1⟩

end ProductSearch
